import Mathlib

/-!
Verification of the core of the social-feed browser client: the
authenticated-request pipeline with transparent session renewal
(frontend/lib/api.ts) and the optimistic like-toggle controllers
realized in the post card, the post detail page and the LikeButton
component.
-/

namespace SessionTransport

/-- Result of one HTTP attempt as axios reports it to the interceptor:
a 2xx resolution, a rejection carrying the response status
(error.response.status), or a network error with no response. -/
inductive ApiResult where
  | ok
  | errStatus (s : Nat)
  | errNet
deriving DecidableEq

/-- Result of the bare axios.post to /auth/refresh: resolution carrying
response.data.access_token, or a rejection whose own response status
(if any) is recorded. -/
inductive RefreshResult where
  | ok (access_token : String)
  | err (status : Option Nat)
deriving DecidableEq

/-- The remote API as a black box: the reply to the n-th send of the
original request given its Authorization header, and the reply to the
session-refresh call. -/
structure Server where
  reply : Nat → Option String → ApiResult
  refreshReply : RefreshResult

/-- Browser-persisted state: localStorage's access_token entry, and the
navigation side effect window.location.href. -/
structure Storage where
  token : Option String
  href : Option String
deriving DecidableEq

/-- A request descriptor: the _retry flag stamped on the axios config and
its Authorization header. -/
structure Descriptor where
  retry : Bool
  auth : Option String
deriving DecidableEq

/-- Observable events of one request's lifetime. -/
inductive Ev where
  | sent (auth : Option String)
  | refreshCalled
  | tokenSet (t : String)
  | tokenRemoved
  | navigated (url : String)
  | warned
deriving DecidableEq

/-- How the promise returned to the caller settles: resolution, or
rejection carrying the rejecting error's response status (none for a
network error with no response). -/
inductive Outcome where
  | resolved
  | rejected (status : Option Nat)
deriving DecidableEq

/-- Final storage, settlement, and the event trace of one request. -/
structure RunResult where
  storage : Storage
  outcome : Outcome
  trace : List Ev
deriving DecidableEq

/-- The request interceptor (api.ts lines 14-23): read access_token from
localStorage and, when present, overwrite the Authorization header with a
bearer header. -/
def attachAuth (st : Storage) (d : Descriptor) : Descriptor :=
  match st.token with
  | some t => { d with auth := some ("Bearer " ++ t) }
  | none => d

/-- One pass of api(request) together with the response interceptor
(api.ts lines 26-55).  The request interceptor attaches the credential and
the request is sent; on a 401 with the _retry flag unset, the flag is set,
a bare axios.post to /auth/refresh is made (consuming refreshReply
directly: the refresh call does not pass through these interceptors), and
on refresh success the new token is stored and the original descriptor is
resent through api (the recursive call); on refresh failure the token is
removed, the browser navigates to /login and the refresh error is
rethrown.  Any other error passes through unmodified.  Fuel bounds the
recursion; fuel 2 is enough for every reachable execution because the
_retry flag is never cleared. -/
def apiCall (srv : Server) : Nat → Storage → Descriptor → Nat → RunResult
  | 0, st, _, _ => ⟨st, Outcome.rejected none, []⟩
  | fuel + 1, st, d, attempt =>
    let d1 := attachAuth st d
    let evs := [Ev.sent d1.auth]
    match srv.reply attempt d1.auth with
    | ApiResult.ok => ⟨st, Outcome.resolved, evs⟩
    | ApiResult.errNet => ⟨st, Outcome.rejected none, evs⟩
    | ApiResult.errStatus s =>
      if s = 401 ∧ d1.retry = false then
        let d2 : Descriptor := { d1 with retry := true }
        match srv.refreshReply with
        | RefreshResult.ok t =>
          let st2 : Storage := { st with token := some t }
          let d3 : Descriptor := { d2 with auth := some ("Bearer " ++ t) }
          let r := apiCall srv fuel st2 d3 (attempt + 1)
          ⟨r.storage, r.outcome, evs ++ [Ev.refreshCalled, Ev.tokenSet t] ++ r.trace⟩
        | RefreshResult.err s2 =>
          ⟨⟨none, some "/login"⟩, Outcome.rejected s2,
            evs ++ [Ev.refreshCalled, Ev.tokenRemoved, Ev.navigated "/login"]⟩
      else
        ⟨st, Outcome.rejected (some s), evs⟩

/-- Send a fresh request (retry flag unset, no preset header) through the
api instance. -/
def send (srv : Server) (st : Storage) : RunResult :=
  apiCall srv 2 st ⟨false, none⟩ 0

/-- authAPI.logout (api.ts lines 82-85), the API-layer helper: await
api.post("/auth/logout"), then remove access_token.  When the awaited
call rejects, its own removal statement is never reached and the
rejection propagates to the caller — which in the program is always the
auth-store wrapper storeLogout below. -/
def logout (srv : Server) (st : Storage) : RunResult :=
  let r := send srv st
  match r.outcome with
  | Outcome.resolved =>
    ⟨{ r.storage with token := none }, Outcome.resolved, r.trace ++ [Ev.tokenRemoved]⟩
  | o => ⟨r.storage, o, r.trace⟩

/-- The logout operation of the program, useAuthStore.logout
(lib/constants/index.ts): await authAPI.logout() inside try/catch — a
rejection is caught and only warned about — and a finally block that
always removes access_token (and clears the in-memory user).  The
returned promise therefore always resolves. -/
def storeLogout (srv : Server) (st : Storage) : RunResult :=
  let r := logout srv st
  match r.outcome with
  | Outcome.resolved =>
    ⟨{ r.storage with token := none }, Outcome.resolved, r.trace ++ [Ev.tokenRemoved]⟩
  | Outcome.rejected _ =>
    ⟨{ r.storage with token := none }, Outcome.resolved,
      r.trace ++ [Ev.warned, Ev.tokenRemoved]⟩

/-- Number of times the original request was sent. -/
def countSent (tr : List Ev) : Nat :=
  (tr.filter fun e => match e with | Ev.sent _ => true | _ => false).length

/-- Number of calls to the session-refresh endpoint. -/
def countRefresh (tr : List Ev) : Nat :=
  (tr.filter fun e => match e with | Ev.refreshCalled => true | _ => false).length

end SessionTransport

namespace ToggleUI

/-- A toast shown to the user: a success message, or an error with title
and description. -/
inductive Toast where
  | success (msg : String)
  | error (title : String) (descr : String)
deriving DecidableEq

/-- The error.response object: its status and its data.detail field, each
possibly absent. -/
structure RespObj where
  status : Option Nat
  detail : Option String
deriving DecidableEq

/-- The caught error value of an axios call: the optional response
object, the top-level status field and the top-level message field. -/
structure ErrObj where
  response : Option RespObj
  status : Option Nat
  message : Option String
deriving DecidableEq

/-- The settled result of postsAPI.toggleLike as the caller observes it:
resolution carrying the reply body's status string, or a caught error. -/
inductive ToggleResult where
  | ok (reply : String)
  | err (e : ErrObj)
deriving DecidableEq

/-- Observable events of one toggle invocation.  optimisticApplied marks
the pre-confirmation state flip, networkCall the issuing of the request,
reconciled the post-settlement write (the revert or the in-flight flag
clear in the finally block). -/
inductive Ev where
  | optimisticApplied
  | networkCall
  | reconciled
  | toast (t : Toast)
  | logged
  | callback (postId : Nat) (newLikeState : Bool)
deriving DecidableEq

/-- Whether the character list s starts with the character list pat. -/
def charsStartWith : List Char → List Char → Bool
  | [], _ => true
  | _ :: _, [] => false
  | a :: as, b :: bs => a == b && charsStartWith as bs

/-- Whether the character list s contains pat as a contiguous run. -/
def charsContain (pat : List Char) : List Char → Bool
  | [] => pat.isEmpty
  | c :: cs => charsStartWith pat (c :: cs) || charsContain pat cs

/-- JS String.prototype.includes for the fixed pattern the source tests. -/
def strIncludes (s pat : String) : Bool :=
  charsContain pat.toList s.toList

/-- The combined status post-card reads: error.response?.status ?? error.status. -/
def ErrObj.statusOf (e : ErrObj) : Option Nat :=
  (e.response.bind RespObj.status) <|> e.status

/-- The message post-card reads: error.response?.data?.detail ?? error.message. -/
def ErrObj.messageOf (e : ErrObj) : Option String :=
  (e.response.bind RespObj.detail) <|> e.message

/-! ### Surface 1: the post card (components/posts/post-card.tsx) -/

/-- Local state of one PostCard: isLiked, likeCount and the in-flight
flag isLiking. -/
structure CardState where
  isLiked : Bool
  likeCount : Int
  isLiking : Bool
deriving DecidableEq

/-- handleLike in post-card.tsx up to the suspension point: the in-flight
guard (line 33), snapshot capture, optimistic flip and issuing of the
network call.  Returns the captured (previousLiked, previousCount)
snapshot when the call was issued, none when the invocation returned
early. -/
def cardPhase1 (st : CardState) : CardState × Option (Bool × Int) × List Ev :=
  if st.isLiking then (st, none, [])
  else
    (⟨!st.isLiked, if st.isLiked then st.likeCount - 1 else st.likeCount + 1, true⟩,
     some (st.isLiked, st.likeCount),
     [Ev.optimisticApplied, Ev.networkCall])

/-- handleLike in post-card.tsx after the call settles: on resolution,
toast only when the pre-flip state was unliked, then clear the flag; on
rejection, restore the snapshot, pick the toast by the combined status
(400, 401, otherwise generic), log only when the status is neither 400
nor 401, and clear the flag. -/
def cardPhase2 (st : CardState) (snap : Bool × Int) (res : ToggleResult) :
    CardState × List Ev :=
  match res with
  | ToggleResult.ok _ =>
    ({ st with isLiking := false },
     (if !snap.1 then [Ev.toast (Toast.success "Post liked! ❤️")] else []) ++ [Ev.reconciled])
  | ToggleResult.err e =>
    let status := e.statusOf
    let toastEv :=
      if status = some 400 then
        Ev.toast (Toast.error "Cannot like post" (e.messageOf.getD "You cannot like your own post"))
      else if status = some 401 then
        Ev.toast (Toast.error "Authentication required" "Please login to like posts")
      else
        Ev.toast (Toast.error "Failed to toggle like" "Please try again")
    (⟨snap.1, snap.2, false⟩,
     [toastEv] ++ (if status ≠ some 400 ∧ status ≠ some 401 then [Ev.logged] else [])
       ++ [Ev.reconciled])

/-- The full handleLike of post-card.tsx: phase 1, then phase 2 on the
settled result whenever a call was issued. -/
def cardHandleLike (st : CardState) (res : ToggleResult) : CardState × List Ev :=
  match cardPhase1 st with
  | (st1, some snap, evs1) =>
    let r := cardPhase2 st1 snap res
    (r.1, evs1 ++ r.2)
  | (st1, none, evs1) => (st1, evs1)

/-! ### Surface 2: the post detail page (app/dashboard/posts/[id]/page.tsx) -/

/-- The like-relevant fields of the detail page's post object. -/
structure PostState where
  user_has_liked : Bool
  likes_count : Int
deriving DecidableEq

/-- Local state of the detail page: the possibly-unloaded post and the
in-flight flag. -/
structure DetailState where
  post : Option PostState
  isLiking : Bool
deriving DecidableEq

/-- The message test of the detail page's catch block: the error carries
a string message containing "cannot like your own post". -/
def detailOwnPostMsg (e : ErrObj) : Bool :=
  match e.message with
  | some m => strIncludes m "cannot like your own post"
  | none => false

/-- The logging guard of the detail page: the error carries a response
object whose status is neither 400 nor 401. -/
def detailLogCond (e : ErrObj) : Bool :=
  match e.response with
  | some r => r.status != some 400 && r.status != some 401
  | none => false

/-- handleLike of the detail page up to the suspension point: the guard
(no post loaded, or in flight), capture of the previous post, optimistic
flip of user_has_liked and likes_count, issuing of the call. -/
def detailPhase1 (st : DetailState) : DetailState × Option PostState × List Ev :=
  match st.post with
  | none => (st, none, [])
  | some p =>
    if st.isLiking then (st, none, [])
    else
      (⟨some ⟨!p.user_has_liked,
             if !p.user_has_liked then p.likes_count + 1 else p.likes_count - 1⟩, true⟩,
       some p,
       [Ev.optimisticApplied, Ev.networkCall])

/-- handleLike of the detail page after the call settles: on resolution,
toast only when the flip was into the liked state; on rejection, restore
the previous post, pick the policy toast only when the error message
contains the own-post text (otherwise the generic retry toast), and log
only under detailLogCond. -/
def detailPhase2 (st : DetailState) (previous : PostState) (res : ToggleResult) :
    DetailState × List Ev :=
  match res with
  | ToggleResult.ok _ =>
    ({ st with isLiking := false },
     (if !previous.user_has_liked then [Ev.toast (Toast.success "Post liked! ❤️")] else [])
       ++ [Ev.reconciled])
  | ToggleResult.err e =>
    (⟨some previous, false⟩,
     [if detailOwnPostMsg e then
        Ev.toast (Toast.error "Cannot like post" "You cannot like your own post")
      else
        Ev.toast (Toast.error "Failed to toggle like" "Please try again")]
       ++ (if detailLogCond e then [Ev.logged] else []) ++ [Ev.reconciled])

/-- The full handleLike of the detail page. -/
def detailHandleLike (st : DetailState) (res : ToggleResult) : DetailState × List Ev :=
  match detailPhase1 st with
  | (st1, some previous, evs1) =>
    let r := detailPhase2 st1 previous res
    (r.1, evs1 ++ r.2)
  | (st1, none, evs1) => (st1, evs1)

/-! ### Surface 3: the standalone LikeButton component -/

/-- Local state of one LikeButton: likesCount, userHasLiked and the
in-flight flag isLoading. -/
structure BtnState where
  likesCount : Int
  userHasLiked : Bool
  isLoading : Bool
deriving DecidableEq

/-- The settled fetch of the LikeButton: a response carrying its HTTP
status and the parsed JSON body's detail (error path) and status
(success path) fields, or a thrown error (network failure or the
rethrown non-400/401 error). -/
inductive FetchResult where
  | resp (status : Nat) (detail : Option String) (dataStatus : Option String)
  | thrown
deriving DecidableEq

/-- handleLike of the LikeButton up to the suspension point: snapshot
capture, optimistic flip, set isLoading, issue the fetch.  The source
has no in-flight guard inside the handler; gating happens at the Button
element's disabled attribute, modelled by btnClickPhase1. -/
def btnPhase1 (st : BtnState) : BtnState × (Bool × Int) × List Ev :=
  (⟨if st.userHasLiked then st.likesCount - 1 else st.likesCount + 1, !st.userHasLiked, true⟩,
   (st.userHasLiked, st.likesCount),
   [Ev.optimisticApplied, Ev.networkCall])

/-- handleLike of the LikeButton after the fetch settles.  On a 2xx
response: success toast exactly when the body's status is "liked", then
the optional parent callback with (postId, body status equals liked);
state keeps the optimistic flip.  On 400: policy toast and revert.  On
401: authentication toast and revert.  On any other non-2xx status an
Error is thrown and caught: log, generic toast, revert.  On a thrown
error: log, generic toast, revert.  The finally block clears isLoading. -/
def btnPhase2 (postId : Nat) (st : BtnState) (snap : Bool × Int) (res : FetchResult) :
    BtnState × List Ev :=
  match res with
  | FetchResult.resp status detail dataStatus =>
    if 200 ≤ status ∧ status < 300 then
      ({ st with isLoading := false },
       (if dataStatus == some "liked" then [Ev.toast (Toast.success "Post liked! ❤️")] else [])
         ++ [Ev.callback postId (dataStatus == some "liked")] ++ [Ev.reconciled])
    else if status = 400 then
      (⟨snap.2, snap.1, false⟩,
       [Ev.toast (Toast.error "Cannot like post" (detail.getD "You cannot like your own post"))]
         ++ [Ev.reconciled])
    else if status = 401 then
      (⟨snap.2, snap.1, false⟩,
       [Ev.toast (Toast.error "Authentication required" "Please login to like posts")]
         ++ [Ev.reconciled])
    else
      (⟨snap.2, snap.1, false⟩,
       [Ev.logged, Ev.toast (Toast.error "Failed to update like status" "Please try again")]
         ++ [Ev.reconciled])
  | FetchResult.thrown =>
    (⟨snap.2, snap.1, false⟩,
     [Ev.logged, Ev.toast (Toast.error "Failed to update like status" "Please try again")]
       ++ [Ev.reconciled])

/-- A click on the LikeButton up to the suspension point: the Button
element is disabled while isLoading, so a click during flight never runs
handleLike. -/
def btnClickPhase1 (st : BtnState) : BtnState × Option (Bool × Int) × List Ev :=
  if st.isLoading then (st, none, [])
  else
    let r := btnPhase1 st
    (r.1, some r.2.1, r.2.2)

/-- A full click on the LikeButton: the disabled gate, then handleLike
through both phases. -/
def btnClick (postId : Nat) (st : BtnState) (res : FetchResult) : BtnState × List Ev :=
  match btnClickPhase1 st with
  | (st1, some snap, evs1) =>
    let r := btnPhase2 postId st1 snap res
    (r.1, evs1 ++ r.2)
  | (st1, none, evs1) => (st1, evs1)

/-! ### Sequences of toggle invocations -/

/-- Run a sequence of post-card toggle invocations, each settling with
the listed result. -/
def runCard : CardState → List ToggleResult → CardState
  | st, [] => st
  | st, r :: rs => runCard (cardHandleLike st r).1 rs

/-- Run a sequence of detail-page toggle invocations. -/
def runDetail : DetailState → List ToggleResult → DetailState
  | st, [] => st
  | st, r :: rs => runDetail (detailHandleLike st r).1 rs

/-- Run a sequence of LikeButton clicks. -/
def runBtn (postId : Nat) : BtnState → List FetchResult → BtnState
  | st, [] => st
  | st, r :: rs => runBtn postId (btnClick postId st r).1 rs

/-- The failure classes of the rollback property, as the axios surfaces
classify them from the combined status: RejectedByPolicy (400) or
TransientFailure (any rejection other than a 401). -/
def rollbackClassAxios (r : ToggleResult) : Bool :=
  match r with
  | ToggleResult.ok _ => false
  | ToggleResult.err e => e.statusOf != some 401

/-- The failure classes of the rollback property for the fetch surface:
a non-2xx response other than 401, or a thrown error. -/
def rollbackClassFetch (r : FetchResult) : Bool :=
  match r with
  | FetchResult.resp s _ _ =>
    if 200 ≤ s ∧ s < 300 then false else s != 401
  | FetchResult.thrown => true

/-- Number of network calls in a trace. -/
def countCalls (tr : List Ev) : Nat :=
  (tr.filter fun e => match e with | Ev.networkCall => true | _ => false).length

/-- An axios 401 rejection as a surface receives it: response status 401,
no detail payload, the standard axios message text. -/
def err401 : ErrObj :=
  ⟨some ⟨some 401, none⟩, none, some "Request failed with status code 401"⟩

/-- An axios 400 policy rejection carrying the server's detail text. -/
def err400 : ErrObj :=
  ⟨some ⟨some 400, some "You cannot like your own post"⟩, none,
   some "Request failed with status code 400"⟩

/-- An axios network error: no response object, only a message. -/
def errNetwork : ErrObj := ⟨none, none, some "Network Error"⟩

end ToggleUI

namespace SessionTransport

/-- A server that answers every send of the original request with 401 and
grants the refresh a new token t2. -/
def srvAlways401 : Server :=
  ⟨fun _ _ => ApiResult.errStatus 401, RefreshResult.ok "t2"⟩

/-- A server that answers every send with 401 and also rejects the
refresh call with 401. -/
def srvRefreshDenied : Server :=
  ⟨fun _ _ => ApiResult.errStatus 401, RefreshResult.err (some 401)⟩

/-- A server that answers every send with 500. -/
def srv500 : Server :=
  ⟨fun _ _ => ApiResult.errStatus 500, RefreshResult.err none⟩

/-- A server whose first answer is 401, whose refresh succeeds with t2,
and which accepts the resent request. -/
def srvRecover : Server :=
  ⟨fun n _ => if n = 0 then ApiResult.errStatus 401 else ApiResult.ok,
   RefreshResult.ok "t2"⟩

theorem attachAuth_retry (st : Storage) (d : Descriptor) :
    (attachAuth st d).retry = d.retry := by
  unfold attachAuth; cases st.token <;> rfl

theorem countSent_append (a b : List Ev) :
    countSent (a ++ b) = countSent a + countSent b := by
  simp [countSent, List.filter_append]

theorem countRefresh_append (a b : List Ev) :
    countRefresh (a ++ b) = countRefresh a + countRefresh b := by
  simp [countRefresh, List.filter_append]

/-- With the retried flag already set, one pass never renews and sends at
most once. -/
theorem apiCall_retried_no_renewal (srv : Server) (fuel : Nat) (st : Storage)
    (d : Descriptor) (attempt : Nat) (h : d.retry = true) :
    countSent (apiCall srv fuel st d attempt).trace ≤ 1 ∧
    countRefresh (apiCall srv fuel st d attempt).trace = 0 := by
  cases fuel with
  | zero => simp [apiCall, countSent, countRefresh]
  | succ n =>
    have hr : (attachAuth st d).retry = true := by rw [attachAuth_retry]; exact h
    unfold apiCall
    cases hres : srv.reply attempt (attachAuth st d).auth <;>
      simp [countSent, countRefresh, hr, hres]

/-- Whatever the server answers, a request makes at most one refresh
call. -/
theorem apiCall_refresh_le_one (srv : Server) (fuel : Nat) (st : Storage)
    (d : Descriptor) (attempt : Nat) :
    countRefresh (apiCall srv fuel st d attempt).trace ≤ 1 := by
  cases fuel with
  | zero => simp [apiCall, countRefresh]
  | succ n =>
    unfold apiCall
    cases hres : srv.reply attempt (attachAuth st d).auth with
    | ok => simp [countRefresh, hres]
    | errNet => simp [countRefresh, hres]
    | errStatus s =>
      by_cases hc : s = 401 ∧ (attachAuth st d).retry = false
      · cases href : srv.refreshReply with
        | ok t =>
          simp only [hres, hc, href, and_self, if_true, countRefresh_append,
            eq_self_iff_true, if_pos]
          have hrec := (apiCall_retried_no_renewal srv n ⟨some t, st.href⟩
            ⟨true, some ("Bearer " ++ t)⟩ (attempt + 1) rfl).2
          simp [countRefresh] at hrec ⊢
          exact hrec
        | err s2 => simp [hres, hc, href, countRefresh]
      · simp [hres, hc, countRefresh]

/-- Whatever the server answers, a request is sent at most twice. -/
theorem apiCall_sent_le_two (srv : Server) (fuel : Nat) (st : Storage)
    (d : Descriptor) (attempt : Nat) :
    countSent (apiCall srv fuel st d attempt).trace ≤ 2 := by
  cases fuel with
  | zero => simp [apiCall, countSent]
  | succ n =>
    unfold apiCall
    cases hres : srv.reply attempt (attachAuth st d).auth with
    | ok => simp [countSent, hres]
    | errNet => simp [countSent, hres]
    | errStatus s =>
      by_cases hc : s = 401 ∧ (attachAuth st d).retry = false
      · cases href : srv.refreshReply with
        | ok t =>
          simp only [hres, hc, href, and_self, if_true, countSent_append,
            eq_self_iff_true, if_pos]
          have hrec := (apiCall_retried_no_renewal srv n ⟨some t, st.href⟩
            ⟨true, some ("Bearer " ++ t)⟩ (attempt + 1) rfl).1
          simp [countSent] at hrec ⊢
          omega
        | err s2 => simp [hres, hc, href, countSent]
      · simp [hres, hc, countSent]

/-- C1: a request whose response is 401 while its retried flag is already
set fails immediately with that 401 — the interceptor makes no renewal
call and no resend — and in general any single request is sent at most
twice. -/
theorem retried_401_fails_immediately :
    (∀ (srv : Server) (st : Storage) (d : Descriptor) (attempt fuel : Nat),
        d.retry = true →
        srv.reply attempt (attachAuth st d).auth = ApiResult.errStatus 401 →
        apiCall srv (fuel + 1) st d attempt =
          ⟨st, Outcome.rejected (some 401), [Ev.sent (attachAuth st d).auth]⟩) ∧
    (∀ (srv : Server) (st : Storage) (d : Descriptor) (attempt fuel : Nat),
        countSent (apiCall srv fuel st d attempt).trace ≤ 2) := by
  refine ⟨fun srv st d attempt fuel h h401 => ?_, fun srv st d attempt fuel =>
    apiCall_sent_le_two srv fuel st d attempt⟩
  have hr : (attachAuth st d).retry = true := by rw [attachAuth_retry]; exact h
  unfold apiCall
  simp [h401, hr]

/-- Witness for C1 at a concrete server, storage and retried descriptor. -/
theorem retried_401_fails_immediately_witness :
    apiCall srvAlways401 2 ⟨some "tk", none⟩ ⟨true, none⟩ 0 =
      ⟨⟨some "tk", none⟩, Outcome.rejected (some 401), [Ev.sent (some "Bearer tk")]⟩ :=
  retried_401_fails_immediately.1 srvAlways401 ⟨some "tk", none⟩ ⟨true, none⟩ 0 1 rfl rfl

/-- C10: the renewal call is made through the bare client and never
re-enters the interceptor: every execution makes at most one refresh
call, and a 401 answer to the refresh itself only rejects the original
request (with exactly one refresh made, not two). -/
theorem renewal_never_reentered :
    (∀ (srv : Server) (st : Storage) (d : Descriptor) (attempt fuel : Nat),
        countRefresh (apiCall srv fuel st d attempt).trace ≤ 1) ∧
    (∀ (srv : Server) (st : Storage) (d : Descriptor) (attempt fuel : Nat)
        (s2 : Option Nat),
        d.retry = false →
        srv.reply attempt (attachAuth st d).auth = ApiResult.errStatus 401 →
        srv.refreshReply = RefreshResult.err s2 →
        (apiCall srv (fuel + 1) st d attempt).outcome = Outcome.rejected s2 ∧
        countRefresh (apiCall srv (fuel + 1) st d attempt).trace = 1) := by
  refine ⟨fun srv st d attempt fuel => apiCall_refresh_le_one srv fuel st d attempt,
    fun srv st d attempt fuel s2 h h401 href => ?_⟩
  have hr : (attachAuth st d).retry = false := by rw [attachAuth_retry]; exact h
  unfold apiCall
  simp [h401, hr, href, countRefresh]

/-- Witness for C10 at a concrete server whose refresh call is itself
answered 401. -/
theorem renewal_never_reentered_witness :
    (apiCall srvRefreshDenied 2 ⟨some "t1", none⟩ ⟨false, none⟩ 0).outcome =
      Outcome.rejected (some 401) ∧
    countRefresh (apiCall srvRefreshDenied 2 ⟨some "t1", none⟩ ⟨false, none⟩ 0).trace = 1 :=
  renewal_never_reentered.2 srvRefreshDenied ⟨some "t1", none⟩ ⟨false, none⟩ 0 1
    (some 401) rfl rfl rfl

/-- C2 counterexample: when the renewal succeeds but the retried request
is again answered 401, the request terminates rejected-401 after exactly
two sends and one renewal, yet the stored access_token is NOT removed:
the renewed token t2 remains in storage. -/
theorem retried_401_keeps_token_cex :
    (send srvAlways401 ⟨some "t1", none⟩).outcome = Outcome.rejected (some 401) ∧
    countSent (send srvAlways401 ⟨some "t1", none⟩).trace = 2 ∧
    countRefresh (send srvAlways401 ⟨some "t1", none⟩).trace = 1 ∧
    (send srvAlways401 ⟨some "t1", none⟩).storage.token = some "t2" ∧
    (send srvAlways401 ⟨some "t1", none⟩).storage.token ≠ none := by decide

/-- C2 (amended): a request answered unauthenticated twice in a row
terminates rejected-401 with no third attempt; when it is the renewal
call that is rejected the stored access_token is removed, but when the
once-retried request is again answered 401 the (renewed) token remains
in storage. -/
theorem double_unauthenticated_terminal :
    (∀ (srv : Server) (st : Storage) (d : Descriptor) (attempt : Nat),
        d.retry = false →
        srv.reply attempt (attachAuth st d).auth = ApiResult.errStatus 401 →
        srv.refreshReply = RefreshResult.err (some 401) →
        (apiCall srv 2 st d attempt).outcome = Outcome.rejected (some 401) ∧
        (apiCall srv 2 st d attempt).storage.token = none ∧
        countSent (apiCall srv 2 st d attempt).trace = 1 ∧
        countRefresh (apiCall srv 2 st d attempt).trace = 1) ∧
    (∀ (srv : Server) (st : Storage) (d : Descriptor) (attempt : Nat) (t : String),
        d.retry = false →
        srv.reply attempt (attachAuth st d).auth = ApiResult.errStatus 401 →
        srv.refreshReply = RefreshResult.ok t →
        srv.reply (attempt + 1) (some ("Bearer " ++ t)) = ApiResult.errStatus 401 →
        (apiCall srv 2 st d attempt).outcome = Outcome.rejected (some 401) ∧
        (apiCall srv 2 st d attempt).storage.token = some t ∧
        countSent (apiCall srv 2 st d attempt).trace = 2 ∧
        countRefresh (apiCall srv 2 st d attempt).trace = 1) := by
  constructor
  · intro srv st d attempt h h401 href
    have hr : (attachAuth st d).retry = false := by rw [attachAuth_retry]; exact h
    unfold apiCall
    simp [h401, hr, href, countSent, countRefresh]
  · intro srv st d attempt t h h401 href h401b
    have hr : (attachAuth st d).retry = false := by rw [attachAuth_retry]; exact h
    have hinner : apiCall srv 1 ⟨some t, st.href⟩ ⟨true, some ("Bearer " ++ t)⟩
        (attempt + 1) =
        ⟨⟨some t, st.href⟩, Outcome.rejected (some 401), [Ev.sent (some ("Bearer " ++ t))]⟩ := by
      unfold apiCall
      simp [attachAuth, h401b]
    unfold apiCall
    simp [h401, hr, href, hinner, countSent, countRefresh]

/-- Witness for C2 (amended), both conjuncts, at concrete servers. -/
theorem double_unauthenticated_terminal_witness :
    ((apiCall srvRefreshDenied 2 ⟨some "t1", none⟩ ⟨false, none⟩ 0).outcome =
        Outcome.rejected (some 401) ∧
      (apiCall srvRefreshDenied 2 ⟨some "t1", none⟩ ⟨false, none⟩ 0).storage.token = none ∧
      countSent (apiCall srvRefreshDenied 2 ⟨some "t1", none⟩ ⟨false, none⟩ 0).trace = 1 ∧
      countRefresh (apiCall srvRefreshDenied 2 ⟨some "t1", none⟩ ⟨false, none⟩ 0).trace = 1) ∧
    ((apiCall srvAlways401 2 ⟨some "t1", none⟩ ⟨false, none⟩ 0).outcome =
        Outcome.rejected (some 401) ∧
      (apiCall srvAlways401 2 ⟨some "t1", none⟩ ⟨false, none⟩ 0).storage.token = some "t2" ∧
      countSent (apiCall srvAlways401 2 ⟨some "t1", none⟩ ⟨false, none⟩ 0).trace = 2 ∧
      countRefresh (apiCall srvAlways401 2 ⟨some "t1", none⟩ ⟨false, none⟩ 0).trace = 1) :=
  ⟨double_unauthenticated_terminal.1 srvRefreshDenied ⟨some "t1", none⟩ ⟨false, none⟩ 0
      rfl rfl rfl,
   double_unauthenticated_terminal.2 srvAlways401 ⟨some "t1", none⟩ ⟨false, none⟩ 0 "t2"
      rfl rfl rfl rfl⟩

/-- C9: the access_token is removed on every execution of the logout
operation — the auth-store wrapper's finally block removes it whatever
the network call does, and the operation always resolves — and it is
removed on every renewal failure inside the transport. -/
theorem store_logout_clears_token :
    (∀ (srv : Server) (st : Storage),
        (storeLogout srv st).storage.token = none ∧
        (storeLogout srv st).outcome = Outcome.resolved) ∧
    (∀ (srv : Server) (st : Storage) (d : Descriptor) (attempt : Nat) (s2 : Option Nat),
        d.retry = false →
        srv.reply attempt (attachAuth st d).auth = ApiResult.errStatus 401 →
        srv.refreshReply = RefreshResult.err s2 →
        (apiCall srv 2 st d attempt).storage.token = none) := by
  constructor
  · intro srv st
    unfold storeLogout
    cases hout : (logout srv st).outcome <;> simp [hout]
  · intro srv st d attempt s2 h h401 href
    have hr : (attachAuth st d).retry = false := by rw [attachAuth_retry]; exact h
    unfold apiCall
    simp [h401, hr, href]

/-- Witness for C9: a logout whose network call is rejected with 500
still ends with the token removed and the operation resolved, and a
renewal failure removes the token. -/
theorem store_logout_clears_token_witness :
    ((storeLogout srv500 ⟨some "tok", none⟩).storage.token = none ∧
      (storeLogout srv500 ⟨some "tok", none⟩).outcome = Outcome.resolved) ∧
    (apiCall srvRefreshDenied 2 ⟨some "t0", none⟩ ⟨false, none⟩ 0).storage.token = none :=
  ⟨store_logout_clears_token.1 srv500 ⟨some "tok", none⟩,
   store_logout_clears_token.2 srvRefreshDenied ⟨some "t0", none⟩
      ⟨false, none⟩ 0 (some 401) rfl rfl rfl⟩

end SessionTransport

namespace ToggleUI

/-- Every failed post-card toggle restores the pre-flip liked/count pair
exactly (guarded invocations change nothing at all). -/
theorem cardHandleLike_err_preserves (st : CardState) (e : ErrObj) :
    (cardHandleLike st (ToggleResult.err e)).1.isLiked = st.isLiked ∧
    (cardHandleLike st (ToggleResult.err e)).1.likeCount = st.likeCount := by
  by_cases h : st.isLiking <;>
    simp [cardHandleLike, cardPhase1, cardPhase2, h]

/-- Every failed detail-page toggle restores the previous post object
verbatim. -/
theorem detailHandleLike_err_preserves (st : DetailState) (e : ErrObj) :
    (detailHandleLike st (ToggleResult.err e)).1.post = st.post := by
  rcases hp : st.post with _ | p
  · simp [detailHandleLike, detailPhase1, hp]
  · by_cases h : st.isLiking <;>
      simp [detailHandleLike, detailPhase1, detailPhase2, hp, h]

/-- Every failed LikeButton click restores the pre-flip pair exactly. -/
theorem btnClick_fail_preserves (postId : Nat) (st : BtnState) (r : FetchResult)
    (h : rollbackClassFetch r = true) :
    (btnClick postId st r).1.userHasLiked = st.userHasLiked ∧
    (btnClick postId st r).1.likesCount = st.likesCount := by
  by_cases hl : st.isLoading
  · simp [btnClick, btnClickPhase1, hl]
  · rcases r with ⟨status, detail, dataStatus⟩ | _
    · by_cases h2xx : 200 ≤ status ∧ status < 300
      · simp [rollbackClassFetch, h2xx] at h
      · by_cases h400 : status = 400
        · simp [btnClick, btnClickPhase1, btnPhase1, btnPhase2, hl, h2xx, h400]
        · by_cases h401 : status = 401
          · simp [rollbackClassFetch, h2xx, h401] at h
          · simp [btnClick, btnClickPhase1, btnPhase1, btnPhase2, hl, h2xx, h400, h401]
    · simp [btnClick, btnClickPhase1, btnPhase1, btnPhase2, hl]

/-- Sequences of failing post-card toggles preserve the visible pair. -/
theorem runCard_preserves (rs : List ToggleResult) :
    ∀ st : CardState, (∀ r ∈ rs, rollbackClassAxios r = true) →
      (runCard st rs).isLiked = st.isLiked ∧
      (runCard st rs).likeCount = st.likeCount := by
  induction rs with
  | nil => intro st _; simp [runCard]
  | cons r rs ih =>
    intro st hall
    have hr := hall r (List.mem_cons_self r rs)
    rcases r with rep | e
    · simp [rollbackClassAxios] at hr
    · have hstep := cardHandleLike_err_preserves st e
      have hrest := ih (cardHandleLike st (ToggleResult.err e)).1
        (fun x hx => hall x (List.mem_cons_of_mem _ hx))
      simp only [runCard]
      exact ⟨hrest.1.trans hstep.1, hrest.2.trans hstep.2⟩

/-- Sequences of failing detail-page toggles preserve the post object. -/
theorem runDetail_preserves (rs : List ToggleResult) :
    ∀ st : DetailState, (∀ r ∈ rs, rollbackClassAxios r = true) →
      (runDetail st rs).post = st.post := by
  induction rs with
  | nil => intro st _; simp [runDetail]
  | cons r rs ih =>
    intro st hall
    have hr := hall r (List.mem_cons_self r rs)
    rcases r with rep | e
    · simp [rollbackClassAxios] at hr
    · have hstep := detailHandleLike_err_preserves st e
      have hrest := ih (detailHandleLike st (ToggleResult.err e)).1
        (fun x hx => hall x (List.mem_cons_of_mem _ hx))
      simp only [runDetail]
      exact hrest.trans hstep

/-- Sequences of failing LikeButton clicks preserve the visible pair. -/
theorem runBtn_preserves (postId : Nat) (rs : List FetchResult) :
    ∀ st : BtnState, (∀ r ∈ rs, rollbackClassFetch r = true) →
      (runBtn postId st rs).userHasLiked = st.userHasLiked ∧
      (runBtn postId st rs).likesCount = st.likesCount := by
  induction rs with
  | nil => intro st _; simp [runBtn]
  | cons r rs ih =>
    intro st hall
    have hstep := btnClick_fail_preserves postId st r
      (hall r (List.mem_cons_self r rs))
    have hrest := ih (btnClick postId st r).1
      (fun x hx => hall x (List.mem_cons_of_mem r hx))
    simp only [runBtn]
    exact ⟨hrest.1.trans hstep.1, hrest.2.trans hstep.2⟩

/-- C3: for every sequence of toggle invocations on one surface in which
each network call fails with RejectedByPolicy (400) or TransientFailure,
the visible liked/count pair after the last rollback equals the initial
pair exactly, on each of the three surfaces. -/
theorem rollback_sequences_restore :
    (∀ (st : CardState) (rs : List ToggleResult),
        (∀ r ∈ rs, rollbackClassAxios r = true) →
        (runCard st rs).isLiked = st.isLiked ∧
        (runCard st rs).likeCount = st.likeCount) ∧
    (∀ (st : DetailState) (rs : List ToggleResult),
        (∀ r ∈ rs, rollbackClassAxios r = true) →
        (runDetail st rs).post = st.post) ∧
    (∀ (postId : Nat) (st : BtnState) (rs : List FetchResult),
        (∀ r ∈ rs, rollbackClassFetch r = true) →
        (runBtn postId st rs).userHasLiked = st.userHasLiked ∧
        (runBtn postId st rs).likesCount = st.likesCount) :=
  ⟨fun st rs h => runCard_preserves rs st h,
   fun st rs h => runDetail_preserves rs st h,
   fun postId st rs h => runBtn_preserves postId rs st h⟩

/-- Witness for C3: a 400 rejection followed by a network failure leaves
each surface at its initial pair. -/
theorem rollback_sequences_restore_witness :
    ((runCard ⟨false, 5, false⟩
        [ToggleResult.err err400, ToggleResult.err errNetwork]).isLiked = false ∧
      (runCard ⟨false, 5, false⟩
        [ToggleResult.err err400, ToggleResult.err errNetwork]).likeCount = 5) ∧
    (runDetail ⟨some ⟨false, 5⟩, false⟩
        [ToggleResult.err err400, ToggleResult.err errNetwork]).post = some ⟨false, 5⟩ ∧
    ((runBtn 7 ⟨5, false, false⟩
        [FetchResult.resp 400 (some "You cannot like your own post") none,
         FetchResult.thrown]).userHasLiked = false ∧
      (runBtn 7 ⟨5, false, false⟩
        [FetchResult.resp 400 (some "You cannot like your own post") none,
         FetchResult.thrown]).likesCount = 5) :=
  ⟨rollback_sequences_restore.1 ⟨false, 5, false⟩
      [ToggleResult.err err400, ToggleResult.err errNetwork] (by decide),
   rollback_sequences_restore.2.1 ⟨some ⟨false, 5⟩, false⟩
      [ToggleResult.err err400, ToggleResult.err errNetwork] (by decide),
   rollback_sequences_restore.2.2 7 ⟨5, false, false⟩
      [FetchResult.resp 400 (some "You cannot like your own post") none,
       FetchResult.thrown] (by decide)⟩

/-- While one call is in flight, the post-card guard makes a second
invocation a no-op. -/
theorem cardPhase1_inflight (st : CardState) (h : st.isLiking = true) :
    cardPhase1 st = (st, none, []) := by
  simp [cardPhase1, h]

/-- While one call is in flight, the detail-page guard makes a second
invocation a no-op. -/
theorem detailPhase1_inflight (st : DetailState) (h : st.isLiking = true) :
    detailPhase1 st = (st, none, []) := by
  rcases hp : st.post with _ | p <;> simp [detailPhase1, hp, h]

/-- While one fetch is in flight, the LikeButton is disabled and a click
is a no-op. -/
theorem btnClickPhase1_inflight (st : BtnState) (h : st.isLoading = true) :
    btnClickPhase1 st = (st, none, []) := by
  simp [btnClickPhase1, h]

/-- C5: on each surface, an invocation from the idle state sets the
in-flight flag and issues exactly one network call, and a second
invocation made while that call is in flight is ignored: the state is
unchanged and no second call is issued, so two rapid invocations issue
exactly one call. -/
theorem inflight_invocation_ignored :
    (∀ st : CardState, st.isLiking = false →
        (cardPhase1 st).1.isLiking = true ∧
        countCalls (cardPhase1 st).2.2 = 1 ∧
        cardPhase1 (cardPhase1 st).1 = ((cardPhase1 st).1, none, [])) ∧
    (∀ (st : DetailState) (p : PostState), st.post = some p → st.isLiking = false →
        (detailPhase1 st).1.isLiking = true ∧
        countCalls (detailPhase1 st).2.2 = 1 ∧
        detailPhase1 (detailPhase1 st).1 = ((detailPhase1 st).1, none, [])) ∧
    (∀ st : BtnState, st.isLoading = false →
        (btnClickPhase1 st).1.isLoading = true ∧
        countCalls (btnClickPhase1 st).2.2 = 1 ∧
        btnClickPhase1 (btnClickPhase1 st).1 = ((btnClickPhase1 st).1, none, [])) := by
  refine ⟨fun st h => ?_, fun st p hp h => ?_, fun st h => ?_⟩
  · refine ⟨by simp [cardPhase1, h], by simp [cardPhase1, h, countCalls], ?_⟩
    exact cardPhase1_inflight _ (by simp [cardPhase1, h])
  · refine ⟨by simp [detailPhase1, hp, h], by simp [detailPhase1, hp, h, countCalls], ?_⟩
    exact detailPhase1_inflight _ (by simp [detailPhase1, hp, h])
  · refine ⟨by simp [btnClickPhase1, btnPhase1, h],
      by simp [btnClickPhase1, btnPhase1, h, countCalls], ?_⟩
    exact btnClickPhase1_inflight _ (by simp [btnClickPhase1, btnPhase1, h])

/-- Witness for C5 on all three surfaces at concrete idle states. -/
theorem inflight_invocation_ignored_witness :
    ((cardPhase1 ⟨false, 5, false⟩).1.isLiking = true ∧
      countCalls (cardPhase1 ⟨false, 5, false⟩).2.2 = 1 ∧
      cardPhase1 (cardPhase1 ⟨false, 5, false⟩).1 =
        ((cardPhase1 ⟨false, 5, false⟩).1, none, [])) ∧
    ((detailPhase1 ⟨some ⟨false, 5⟩, false⟩).1.isLiking = true ∧
      countCalls (detailPhase1 ⟨some ⟨false, 5⟩, false⟩).2.2 = 1 ∧
      detailPhase1 (detailPhase1 ⟨some ⟨false, 5⟩, false⟩).1 =
        ((detailPhase1 ⟨some ⟨false, 5⟩, false⟩).1, none, [])) ∧
    ((btnClickPhase1 ⟨5, false, false⟩).1.isLoading = true ∧
      countCalls (btnClickPhase1 ⟨5, false, false⟩).2.2 = 1 ∧
      btnClickPhase1 (btnClickPhase1 ⟨5, false, false⟩).1 =
        ((btnClickPhase1 ⟨5, false, false⟩).1, none, [])) :=
  ⟨inflight_invocation_ignored.1 ⟨false, 5, false⟩ rfl,
   inflight_invocation_ignored.2.1 ⟨some ⟨false, 5⟩, false⟩ ⟨false, 5⟩ rfl rfl,
   inflight_invocation_ignored.2.2 ⟨5, false, false⟩ rfl⟩

/-- The settlement-side trace of the post card contains the
reconciliation write and never a mutation or a network call. -/
theorem cardPhase2_trace (st : CardState) (snap : Bool × Int) (res : ToggleResult) :
    Ev.reconciled ∈ (cardPhase2 st snap res).2 ∧
    Ev.optimisticApplied ∉ (cardPhase2 st snap res).2 ∧
    Ev.networkCall ∉ (cardPhase2 st snap res).2 := by
  rcases res with rep | e <;> simp only [cardPhase2] <;> split_ifs <;> simp

/-- The settlement-side trace of the detail page contains the
reconciliation write and never a mutation or a network call. -/
theorem detailPhase2_trace (st : DetailState) (p : PostState) (res : ToggleResult) :
    Ev.reconciled ∈ (detailPhase2 st p res).2 ∧
    Ev.optimisticApplied ∉ (detailPhase2 st p res).2 ∧
    Ev.networkCall ∉ (detailPhase2 st p res).2 := by
  rcases res with rep | e <;> simp only [detailPhase2] <;> split_ifs <;> simp

/-- The settlement-side trace of the LikeButton contains the
reconciliation write and never a mutation or a network call. -/
theorem btnPhase2_trace (postId : Nat) (st : BtnState) (snap : Bool × Int)
    (res : FetchResult) :
    Ev.reconciled ∈ (btnPhase2 postId st snap res).2 ∧
    Ev.optimisticApplied ∉ (btnPhase2 postId st snap res).2 ∧
    Ev.networkCall ∉ (btnPhase2 postId st snap res).2 := by
  rcases res with ⟨status, detail, dataStatus⟩ | _
  · simp only [btnPhase2]; split_ifs <;> simp
  · simp [btnPhase2]

/-- C6: on every surface and for every toggle invocation that issues a
call, the optimistic mutation is applied first, the network call is
issued second, and reconciliation happens only after the call settles:
the trace is the mutation, then the call, then a remainder that contains
the reconciliation write and no further mutation or call, for success and
failure alike. -/
theorem optimistic_then_call_then_reconcile :
    (∀ (st : CardState) (res : ToggleResult), st.isLiking = false →
        ∃ rest, (cardHandleLike st res).2 =
            Ev.optimisticApplied :: Ev.networkCall :: rest ∧
          Ev.reconciled ∈ rest ∧ Ev.optimisticApplied ∉ rest ∧ Ev.networkCall ∉ rest) ∧
    (∀ (st : DetailState) (p : PostState) (res : ToggleResult),
        st.post = some p → st.isLiking = false →
        ∃ rest, (detailHandleLike st res).2 =
            Ev.optimisticApplied :: Ev.networkCall :: rest ∧
          Ev.reconciled ∈ rest ∧ Ev.optimisticApplied ∉ rest ∧ Ev.networkCall ∉ rest) ∧
    (∀ (postId : Nat) (st : BtnState) (res : FetchResult), st.isLoading = false →
        ∃ rest, (btnClick postId st res).2 =
            Ev.optimisticApplied :: Ev.networkCall :: rest ∧
          Ev.reconciled ∈ rest ∧ Ev.optimisticApplied ∉ rest ∧ Ev.networkCall ∉ rest) := by
  refine ⟨fun st res h => ?_, fun st p res hp h => ?_, fun postId st res h => ?_⟩
  · refine ⟨(cardPhase2 ⟨!st.isLiked,
      if st.isLiked then st.likeCount - 1 else st.likeCount + 1, true⟩
      (st.isLiked, st.likeCount) res).2, ?_, cardPhase2_trace _ _ res⟩
    simp [cardHandleLike, cardPhase1, h]
  · refine ⟨(detailPhase2 ⟨some ⟨!p.user_has_liked,
      if !p.user_has_liked then p.likes_count + 1 else p.likes_count - 1⟩, true⟩
      p res).2, ?_, detailPhase2_trace _ _ res⟩
    simp [detailHandleLike, detailPhase1, hp, h]
  · refine ⟨(btnPhase2 postId ⟨if st.userHasLiked then st.likesCount - 1
      else st.likesCount + 1, !st.userHasLiked, true⟩
      (st.userHasLiked, st.likesCount) res).2, ?_, btnPhase2_trace _ _ _ res⟩
    simp [btnClick, btnClickPhase1, btnPhase1, h]

/-- Witness for C6 at a concrete idle state on each surface. -/
theorem optimistic_then_call_then_reconcile_witness :
    (∃ rest, (cardHandleLike ⟨false, 5, false⟩ (ToggleResult.ok "liked")).2 =
        Ev.optimisticApplied :: Ev.networkCall :: rest ∧
      Ev.reconciled ∈ rest ∧ Ev.optimisticApplied ∉ rest ∧ Ev.networkCall ∉ rest) ∧
    (∃ rest, (detailHandleLike ⟨some ⟨false, 5⟩, false⟩ (ToggleResult.err err400)).2 =
        Ev.optimisticApplied :: Ev.networkCall :: rest ∧
      Ev.reconciled ∈ rest ∧ Ev.optimisticApplied ∉ rest ∧ Ev.networkCall ∉ rest) ∧
    (∃ rest, (btnClick 7 ⟨5, false, false⟩ FetchResult.thrown).2 =
        Ev.optimisticApplied :: Ev.networkCall :: rest ∧
      Ev.reconciled ∈ rest ∧ Ev.optimisticApplied ∉ rest ∧ Ev.networkCall ∉ rest) :=
  ⟨optimistic_then_call_then_reconcile.1 ⟨false, 5, false⟩ (ToggleResult.ok "liked") rfl,
   optimistic_then_call_then_reconcile.2.1 ⟨some ⟨false, 5⟩, false⟩ ⟨false, 5⟩
      (ToggleResult.err err400) rfl rfl,
   optimistic_then_call_then_reconcile.2.2 7 ⟨5, false, false⟩ FetchResult.thrown rfl⟩

/-- C4 counterexample: a successful toggle whose server-reported state
("unliked") disagrees with the optimistic guess: both the LikeButton and
the post card keep the optimistic guess (liked, count 6) as the final
visible state instead of adopting the server-reported state. -/
theorem server_state_not_adopted_cex :
    (btnClick 7 ⟨5, false, false⟩ (FetchResult.resp 200 none (some "unliked"))).1 =
      ⟨6, true, false⟩ ∧
    (cardHandleLike ⟨false, 5, false⟩ (ToggleResult.ok "unliked")).1 =
      ⟨true, 6, false⟩ := by decide

/-- C4 (amended): on every successful toggle each surface keeps the
optimistic flip as the final visible state, whatever liked/unliked state
the server reports; the reply is never adopted into the visible state. -/
theorem success_keeps_optimistic :
    (∀ (st : CardState) (rep : String), st.isLiking = false →
        (cardHandleLike st (ToggleResult.ok rep)).1 =
          ⟨!st.isLiked, if st.isLiked then st.likeCount - 1 else st.likeCount + 1,
           false⟩) ∧
    (∀ (st : DetailState) (p : PostState) (rep : String),
        st.post = some p → st.isLiking = false →
        (detailHandleLike st (ToggleResult.ok rep)).1 =
          ⟨some ⟨!p.user_has_liked,
             if !p.user_has_liked then p.likes_count + 1 else p.likes_count - 1⟩,
           false⟩) ∧
    (∀ (postId : Nat) (st : BtnState) (status : Nat) (detail dataStatus : Option String),
        st.isLoading = false → 200 ≤ status → status < 300 →
        (btnClick postId st (FetchResult.resp status detail dataStatus)).1 =
          ⟨if st.userHasLiked then st.likesCount - 1 else st.likesCount + 1,
           !st.userHasLiked, false⟩) := by
  refine ⟨fun st rep h => ?_, fun st p rep hp h => ?_,
    fun postId st status detail dataStatus h hlo hhi => ?_⟩
  · simp [cardHandleLike, cardPhase1, cardPhase2, h]
  · simp [detailHandleLike, detailPhase1, detailPhase2, hp, h]
  · simp [btnClick, btnClickPhase1, btnPhase1, btnPhase2, h, hlo, hhi]

/-- Witness for C4 (amended) at concrete idle states, with the server
reply disagreeing with the optimistic guess on each surface. -/
theorem success_keeps_optimistic_witness :
    (cardHandleLike ⟨true, 5, false⟩ (ToggleResult.ok "liked")).1 = ⟨false, 4, false⟩ ∧
    (detailHandleLike ⟨some ⟨true, 5⟩, false⟩ (ToggleResult.ok "liked")).1 =
      ⟨some ⟨false, 4⟩, false⟩ ∧
    (btnClick 7 ⟨5, true, false⟩ (FetchResult.resp 200 none (some "liked"))).1 =
      ⟨4, false, false⟩ :=
  ⟨success_keeps_optimistic.1 ⟨true, 5, false⟩ "liked" rfl,
   success_keeps_optimistic.2.1 ⟨some ⟨true, 5⟩, false⟩ ⟨true, 5⟩ "liked" rfl rfl,
   success_keeps_optimistic.2.2 7 ⟨5, true, false⟩ 200 none (some "liked") rfl
      (by decide) (by decide)⟩

/-- C7 counterexample: in the detail surface a 401 failure produces the
same generic retry toast as a transient failure and no distinct
unauthenticated message exists there; the transient network failure also
goes unlogged there because the error carries no response object. -/
theorem detail_401_generic_toast_cex :
    (detailHandleLike ⟨some ⟨false, 5⟩, false⟩ (ToggleResult.err err401)).2 =
      [Ev.optimisticApplied, Ev.networkCall,
       Ev.toast (Toast.error "Failed to toggle like" "Please try again"),
       Ev.reconciled] ∧
    Ev.toast (Toast.error "Authentication required" "Please login to like posts") ∉
      (detailHandleLike ⟨some ⟨false, 5⟩, false⟩ (ToggleResult.err err401)).2 ∧
    Ev.logged ∉
      (detailHandleLike ⟨some ⟨false, 5⟩, false⟩ (ToggleResult.err errNetwork)).2 := by
  decide

/-- C7 (amended): in the post-card surface the toast is chosen per
failure class from the combined status — 400 distinct, 401 distinct,
generic otherwise — and the error is logged exactly when that status is
neither 400 nor 401; in the detail surface the distinct policy toast
appears exactly when the error message contains the own-post text (so a
plain 401 gets the generic retry toast), and the error is logged exactly
when it carries a response object whose status is neither 400 nor 401. -/
theorem failure_feedback_per_surface :
    (∀ (st : CardState) (e : ErrObj), st.isLiking = false →
        (e.statusOf = some 400 →
          (cardHandleLike st (ToggleResult.err e)).2 =
            [Ev.optimisticApplied, Ev.networkCall,
             Ev.toast (Toast.error "Cannot like post"
               (e.messageOf.getD "You cannot like your own post")),
             Ev.reconciled]) ∧
        (e.statusOf = some 401 →
          (cardHandleLike st (ToggleResult.err e)).2 =
            [Ev.optimisticApplied, Ev.networkCall,
             Ev.toast (Toast.error "Authentication required" "Please login to like posts"),
             Ev.reconciled]) ∧
        (e.statusOf ≠ some 400 → e.statusOf ≠ some 401 →
          (cardHandleLike st (ToggleResult.err e)).2 =
            [Ev.optimisticApplied, Ev.networkCall,
             Ev.toast (Toast.error "Failed to toggle like" "Please try again"),
             Ev.logged, Ev.reconciled])) ∧
    (∀ (st : DetailState) (p : PostState) (e : ErrObj),
        st.post = some p → st.isLiking = false →
        ((Ev.toast (Toast.error "Cannot like post" "You cannot like your own post") ∈
            (detailHandleLike st (ToggleResult.err e)).2 ↔ detailOwnPostMsg e = true) ∧
         (Ev.toast (Toast.error "Failed to toggle like" "Please try again") ∈
            (detailHandleLike st (ToggleResult.err e)).2 ↔ detailOwnPostMsg e = false) ∧
         (Ev.logged ∈ (detailHandleLike st (ToggleResult.err e)).2 ↔
            detailLogCond e = true))) := by
  constructor
  · intro st e h
    refine ⟨fun h400 => ?_, fun h401 => ?_, fun h400 h401 => ?_⟩
    · simp [cardHandleLike, cardPhase1, cardPhase2, h, h400]
    · simp [cardHandleLike, cardPhase1, cardPhase2, h, h401]
    · simp [cardHandleLike, cardPhase1, cardPhase2, h, h400, h401]
  · intro st p e hp h
    by_cases hown : detailOwnPostMsg e <;> by_cases hlog : detailLogCond e <;>
      simp [detailHandleLike, detailPhase1, detailPhase2, hp, h, hown, hlog]

/-- Witness for C7 (amended): concrete 400, 401 and network errors on the
post card, and the own-post message and a 401 on the detail page. -/
theorem failure_feedback_per_surface_witness :
    ((cardHandleLike ⟨false, 5, false⟩ (ToggleResult.err err400)).2 =
      [Ev.optimisticApplied, Ev.networkCall,
       Ev.toast (Toast.error "Cannot like post" "You cannot like your own post"),
       Ev.reconciled]) ∧
    ((cardHandleLike ⟨false, 5, false⟩ (ToggleResult.err err401)).2 =
      [Ev.optimisticApplied, Ev.networkCall,
       Ev.toast (Toast.error "Authentication required" "Please login to like posts"),
       Ev.reconciled]) ∧
    ((cardHandleLike ⟨false, 5, false⟩ (ToggleResult.err errNetwork)).2 =
      [Ev.optimisticApplied, Ev.networkCall,
       Ev.toast (Toast.error "Failed to toggle like" "Please try again"),
       Ev.logged, Ev.reconciled]) ∧
    ((Ev.toast (Toast.error "Cannot like post" "You cannot like your own post") ∈
        (detailHandleLike ⟨some ⟨false, 5⟩, false⟩ (ToggleResult.err
          ⟨some ⟨some 400, some "You cannot like your own post"⟩, none,
           some "you cannot like your own post"⟩)).2 ↔
      detailOwnPostMsg ⟨some ⟨some 400, some "You cannot like your own post"⟩, none,
        some "you cannot like your own post"⟩ = true) ∧
    (Ev.logged ∈ (detailHandleLike ⟨some ⟨false, 5⟩, false⟩
        (ToggleResult.err err401)).2 ↔ detailLogCond err401 = true)) :=
  ⟨((failure_feedback_per_surface.1 ⟨false, 5, false⟩ err400 rfl).1 (by decide)),
   ((failure_feedback_per_surface.1 ⟨false, 5, false⟩ err401 rfl).2.1 (by decide)),
   ((failure_feedback_per_surface.1 ⟨false, 5, false⟩ errNetwork rfl).2.2
      (by decide) (by decide)),
   (failure_feedback_per_surface.2 ⟨some ⟨false, 5⟩, false⟩ ⟨false, 5⟩
      ⟨some ⟨some 400, some "You cannot like your own post"⟩, none,
       some "you cannot like your own post"⟩ rfl rfl).1,
   (failure_feedback_per_surface.2 ⟨some ⟨false, 5⟩, false⟩ ⟨false, 5⟩
      err401 rfl rfl).2.2⟩

/-- C8 counterexample: in the LikeButton surface, on an unliking toggle
(pre-click state liked, final visible state unliked) whose call succeeds
with the server reporting "liked", the positive notification is emitted
although the toggle is an unliking. -/
theorem unliking_success_toast_cex :
    Ev.toast (Toast.success "Post liked! ❤️") ∈
      (btnClick 7 ⟨5, true, false⟩ (FetchResult.resp 200 none (some "liked"))).2 ∧
    (btnClick 7 ⟨5, true, false⟩
      (FetchResult.resp 200 none (some "liked"))).1.userHasLiked = false := by
  decide

/-- C8 (amended): on a successful toggle the card and detail surfaces
emit the positive notification exactly on a transition into the liked
state; the LikeButton surface emits it exactly when the server reports
"liked", which coincides with the transition direction only when the
server reply agrees with the optimistic flip. -/
theorem success_toast_condition :
    (∀ (st : CardState) (rep : String), st.isLiking = false →
        (Ev.toast (Toast.success "Post liked! ❤️") ∈
            (cardHandleLike st (ToggleResult.ok rep)).2 ↔ st.isLiked = false)) ∧
    (∀ (st : DetailState) (p : PostState) (rep : String),
        st.post = some p → st.isLiking = false →
        (Ev.toast (Toast.success "Post liked! ❤️") ∈
            (detailHandleLike st (ToggleResult.ok rep)).2 ↔
          p.user_has_liked = false)) ∧
    (∀ (postId : Nat) (st : BtnState) (status : Nat) (detail dataStatus : Option String),
        st.isLoading = false → 200 ≤ status → status < 300 →
        (Ev.toast (Toast.success "Post liked! ❤️") ∈
            (btnClick postId st (FetchResult.resp status detail dataStatus)).2 ↔
          dataStatus = some "liked")) := by
  refine ⟨fun st rep h => ?_, fun st p rep hp h => ?_,
    fun postId st status detail dataStatus h hlo hhi => ?_⟩
  · by_cases hl : st.isLiked <;>
      simp [cardHandleLike, cardPhase1, cardPhase2, h, hl]
  · by_cases hl : p.user_has_liked <;>
      simp [detailHandleLike, detailPhase1, detailPhase2, hp, h, hl]
  · by_cases hd : dataStatus = some "liked" <;>
      simp [btnClick, btnClickPhase1, btnPhase1, btnPhase2, h, hlo, hhi, hd]

/-- Witness for C8 (amended): the liking direction on the card and the
detail page, and a server "liked" reply on the LikeButton. -/
theorem success_toast_condition_witness :
    (Ev.toast (Toast.success "Post liked! ❤️") ∈
        (cardHandleLike ⟨false, 5, false⟩ (ToggleResult.ok "liked")).2 ↔
      (false : Bool) = false) ∧
    (Ev.toast (Toast.success "Post liked! ❤️") ∈
        (detailHandleLike ⟨some ⟨false, 5⟩, false⟩ (ToggleResult.ok "liked")).2 ↔
      (false : Bool) = false) ∧
    (Ev.toast (Toast.success "Post liked! ❤️") ∈
        (btnClick 7 ⟨5, false, false⟩ (FetchResult.resp 200 none (some "liked"))).2 ↔
      some "liked" = some "liked") :=
  ⟨success_toast_condition.1 ⟨false, 5, false⟩ "liked" rfl,
   success_toast_condition.2.1 ⟨some ⟨false, 5⟩, false⟩ ⟨false, 5⟩ "liked" rfl rfl,
   success_toast_condition.2.2 7 ⟨5, false, false⟩ 200 none (some "liked") rfl
      (by decide) (by decide)⟩

end ToggleUI
